import Mathlib

/-!
Shallow embedding of `src/charm.py` (class `FastAPIDemoCharm`), a Juju charm
that reconciles a FastAPI workload container via Pebble.

The charm's mutable state is `app_environment` (the credential environment
mapping), the ambient Juju config value `server-port`, the unit status, and
the reported workload version.  The external collaborator (the Pebble
container) is modelled by a `Container` record: whether it can be connected
to, the services subtree of its currently active plan, and the outcome of the
best-effort HTTP version probe (`some v` when the probe returns a well-formed
body `{"version": v}`, `none` for any failure: timeout, connection error,
malformed body).

Each handler returns the successor charm state together with the ordered list
of externally visible operations (`Op`) it performed: status writes,
`add_layer`, `restart`, `set_workload_version`.
-/

namespace Charm

/-- One Pebble service definition, as produced by `_pebble_layer` in
`charm.py` (keys `override`, `summary`, `command`, `startup`,
`environment`). -/
structure ServiceSpec where
  override : String
  summary : String
  command : String
  startup : String
  environment : List (String × String)
deriving DecidableEq, Repr

/-- The `services` subtree of a Pebble layer or plan: a mapping from service
name to service spec, represented as an association list. -/
abbrev Services := List (String × ServiceSpec)

/-- A full Pebble layer document, as built by `_pebble_layer`. -/
structure PebbleLayer where
  summary : String
  description : String
  services : Services
deriving DecidableEq, Repr

/-- Python-dict lookup on the services mapping (first occurrence wins). -/
def lookupS : Services → String → Option ServiceSpec
  | [], _ => none
  | (k, v) :: rest, name => if k = name then some v else lookupS rest name

/-- Python dict equality (`services != new_layer["services"]` in
`_update_layer_and_restart` compares two dicts): the two mappings agree on
every key either of them mentions. -/
def dictEqS (a b : Services) : Bool :=
  (a.map Prod.fst ++ b.map Prod.fst).all fun k => decide (lookupS a k = lookupS b k)

/-- Effect of `container.add_layer(label, layer, combine=True)` on the
services subtree of the active plan: each service named in the new layer
replaces the plan's entry of the same name (the layer uses `override:
"replace"`), services not named in the new layer are kept. -/
def applyCombine (newS plan : Services) : Services :=
  newS ++ plan.filter fun p => (lookupS newS p.1).isNone

/-- Juju unit status values used by the charm. -/
inductive StatusV where
  | maintenance (msg : String)
  | waiting (msg : String)
  | blocked (msg : String)
  | active
deriving DecidableEq, Repr

/-- Externally visible operations a handler performs, in order. -/
inductive Op where
  | setStatus (s : StatusV)
  | addLayer (label : String) (layer : PebbleLayer) (combine : Bool)
  | restart (name : String)
  | setWorkloadVersion (v : String)
deriving DecidableEq, Repr

/-- The external Pebble container as the charm observes it:
`can_connect()`, the services subtree of `get_plan()`, and the result of the
version probe `_request_version` (`none` models any raised exception:
timeout, connection error, malformed JSON body). -/
structure Container where
  canConnect : Bool
  planServices : Services
  probeResult : Option String
deriving DecidableEq, Repr

/-- The charm's state: `app_environment`, the ambient config value
`server-port`, the current unit status, the last reported workload version,
and the container it talks to. -/
structure CharmState where
  appEnvironment : List (String × String)
  serverPort : Int
  status : StatusV
  workloadVersion : String
  container : Container
deriving DecidableEq, Repr

/-- `self.pebble_service_name` in `charm.py`. -/
def pebble_service_name : String := "fastapi-service"

/-- The command string assembled in `_pebble_layer`:
`" ".join(["uvicorn", "api_demo_server.app:app", "--host=0.0.0.0",
f"--port={self.config['server-port']}"])`. -/
def layerCommand (port : Int) : String :=
  String.intercalate " "
    ["uvicorn", "api_demo_server.app:app", "--host=0.0.0.0", "--port=" ++ toString port]

/-- `_pebble_layer`: the desired Pebble layer, a pure function of the
credential environment and the configured port. -/
def pebbleLayer (s : CharmState) : PebbleLayer :=
  { summary := "FastAPI demo service"
    description := "pebble config layer for FastAPI demo server"
    services :=
      [(pebble_service_name,
        { override := "replace"
          summary := "fastapi demo"
          command := layerCommand s.serverPort
          startup := "enabled"
          environment := s.appEnvironment })] }

/-- The `version` property: if the container is reachable and
`get_services(pebble_service_name)` is non-empty (the service is in the
plan), return the probe result, converting every probe failure to `""`
(the `try/except Exception` in `charm.py`); otherwise return `""`. -/
def charmVersion (s : CharmState) : String :=
  if s.container.canConnect && (lookupS s.container.planServices pebble_service_name).isSome then
    match s.container.probeResult with
    | some v => v
    | none => ""
  else ""

/-- The charm state right after
`self.container.add_layer("fastapi_demo", self._pebble_layer, combine=True)`:
the container's plan now carries the desired layer merged over the old
plan. -/
def appliedState (s : CharmState) : CharmState :=
  { s with container :=
    { s.container with
      planServices := applyCombine (pebbleLayer s).services s.container.planServices } }

/-- The charm state after the no-diff path of `_update_layer_and_restart`:
only the reported version and the status change. -/
def reconciledSkip (s : CharmState) : CharmState :=
  { s with workloadVersion := charmVersion s, status := StatusV.active }

/-- The charm state after the diff path of `_update_layer_and_restart`: the
layer is applied, then the version is read from the updated container. -/
def reconciledApply (s : CharmState) : CharmState :=
  { appliedState s with
    workloadVersion := charmVersion (appliedState s), status := StatusV.active }

/-- `_update_layer_and_restart`: write Maintenance status; if the container
is reachable, fetch the plan's services subtree, compare it (dict equality)
with the desired layer's services, apply the layer with `combine=True` and
restart the managed service only when they differ, then report the workload
version and write Active; otherwise write Waiting. -/
def updateLayerAndRestart (s : CharmState) : CharmState × List Op :=
  let maintOp := Op.setStatus (StatusV.maintenance "Assembling pod spec")
  if s.container.canConnect then
    let newLayer := pebbleLayer s
    if dictEqS s.container.planServices newLayer.services then
      (reconciledSkip s,
       [maintOp, Op.setWorkloadVersion (charmVersion s), Op.setStatus StatusV.active])
    else
      (reconciledApply s,
       [maintOp, Op.addLayer "fastapi_demo" newLayer true, Op.restart pebble_service_name,
        Op.setWorkloadVersion (charmVersion (appliedState s)), Op.setStatus StatusV.active])
  else
    ({ s with status := StatusV.waiting "Waiting for Pebble in workload container" },
     [maintOp, Op.setStatus (StatusV.waiting "Waiting for Pebble in workload container")])

/-- Python `str.split(sep)` for a one-character separator, on the character
list of the string: `"".split(":") == [""]`, `"a:b".split(":") == ["a","b"]`,
`"::".split(":") == ["","",""]`. -/
def splitChar (c : Char) : List Char → List (List Char)
  | [] => [[]]
  | x :: xs =>
    let r := splitChar c xs
    if x = c then [] :: r
    else
      match r with
      | [] => [[x]]
      | y :: ys => (x :: y) :: ys

/-- `event.endpoints.split(":")` as a list of strings. -/
def splitEndpoints (endpoints : String) : List String :=
  (splitChar ':' endpoints.data).map fun l => String.mk l

/-- `_on_database_created`: `host, port = event.endpoints.split(":")` raises
`ValueError` unless the split yields exactly two parts; on success the four
credential keys are stored in `app_environment` and
`_update_layer_and_restart` runs. -/
def onDatabaseCreated (endpoints username password : String) (s : CharmState) :
    Except String (CharmState × List Op) :=
  match splitEndpoints endpoints with
  | [host, port] =>
      Except.ok (updateLayerAndRestart
        { s with appEnvironment :=
            [("DEMO_SERVER_DB_HOST", host),
             ("DEMO_SERVER_DB_PORT", port),
             ("DEMO_SERVER_DB_USER", username),
             ("DEMO_SERVER_DB_PASSWORD", password)] })
  | _ => Except.error "ValueError: values to unpack"

/-- `_on_database_relation_removed`: reset `app_environment` to empty and
write Waiting status; no reconciliation. -/
def onDatabaseRelationRemoved (s : CharmState) : CharmState × List Op :=
  ({ s with appEnvironment := [],
            status := StatusV.waiting "Waiting for database relation" },
   [Op.setStatus (StatusV.waiting "Waiting for database relation")])

/-- `_on_config_changed`: the handler reads the already-updated config value
`server-port` (modelled by storing the event's port into the state); if
`int(port) == 22` write Blocked and return, else reconcile. -/
def onConfigChanged (port : Int) (s : CharmState) : CharmState × List Op :=
  let s0 := { s with serverPort := port }
  if port = 22 then
    ({ s0 with status := StatusV.blocked "invalid port number, 22 is reserved for SSH" },
     [Op.setStatus (StatusV.blocked "invalid port number, 22 is reserved for SSH")])
  else
    updateLayerAndRestart s0

/-- The inbound events the charm observes, plus `containerChanged` modelling
the external container changing between events. -/
inductive Event where
  | dbCreated (endpoints username password : String)
  | dbRemoved
  | configChanged (port : Int)
  | pebbleReady
  | containerChanged (c : Container)
deriving Repr

/-- One dispatch step: run the handler for the event.  A handler that raises
(`dbCreated` with a malformed endpoint) leaves the charm state unchanged,
since the exception propagates before any assignment. -/
def step (e : Event) (s : CharmState) : CharmState :=
  match e with
  | Event.dbCreated ep u p =>
      match onDatabaseCreated ep u p s with
      | Except.ok (s1, _) => s1
      | Except.error _ => s
  | Event.dbRemoved => (onDatabaseRelationRemoved s).1
  | Event.configChanged port => (onConfigChanged port s).1
  | Event.pebbleReady => (updateLayerAndRestart s).1
  | Event.containerChanged c => { s with container := c }

/-- The state the charm starts in: empty `app_environment` (set in
`__init__`), the config default port (8000 in the tutorial; no claim depends
on it), no reported version. -/
def initState (c : Container) : CharmState :=
  { appEnvironment := []
    serverPort := 8000
    status := StatusV.maintenance ""
    workloadVersion := ""
    container := c }

/-- Number of `restart` operations in a trace. -/
def countRestarts (ops : List Op) : Nat :=
  (ops.filter fun o => match o with | Op.restart _ => true | _ => false).length

/-- Number of `add_layer` operations in a trace. -/
def countAdds (ops : List Op) : Nat :=
  (ops.filter fun o => match o with | Op.addLayer _ _ _ => true | _ => false).length

/-- The credential-set invariant: `app_environment` is either fully empty or
holds exactly the four credential keys. -/
def credInv (env : List (String × String)) : Prop :=
  env = [] ∨ ∃ h p u pw,
    env = [("DEMO_SERVER_DB_HOST", h), ("DEMO_SERVER_DB_PORT", p),
           ("DEMO_SERVER_DB_USER", u), ("DEMO_SERVER_DB_PASSWORD", pw)]

/-- A service spec unrelated to the charm, standing for a service some other
layer (e.g. one baked into the workload image) contributes to the plan. -/
def otherSpec : ServiceSpec :=
  { override := "replace", summary := "other", command := "sleep infinity",
    startup := "enabled", environment := [] }

/-- A reachable container whose active plan already carries a service that is
not the managed one. -/
def cexState : CharmState :=
  { appEnvironment := []
    serverPort := 8000
    status := StatusV.maintenance ""
    workloadVersion := ""
    container :=
      { canConnect := true, planServices := [("other", otherSpec)], probeResult := none } }

/-- A reachable container with an empty plan and a failing version probe. -/
def freshContainer : Container :=
  { canConnect := true, planServices := [], probeResult := none }

/-- An unreachable container. -/
def downContainer : Container :=
  { canConnect := false, planServices := [], probeResult := none }

/-! ### Branch equations for `_update_layer_and_restart` -/

theorem updateLayerAndRestart_of_not_connect (s : CharmState)
    (h : s.container.canConnect = false) :
    updateLayerAndRestart s =
      ({ s with status := StatusV.waiting "Waiting for Pebble in workload container" },
       [Op.setStatus (StatusV.maintenance "Assembling pod spec"),
        Op.setStatus (StatusV.waiting "Waiting for Pebble in workload container")]) := by
  simp [updateLayerAndRestart, h]

theorem updateLayerAndRestart_of_eq (s : CharmState)
    (hc : s.container.canConnect = true)
    (he : dictEqS s.container.planServices (pebbleLayer s).services = true) :
    updateLayerAndRestart s =
      (reconciledSkip s,
       [Op.setStatus (StatusV.maintenance "Assembling pod spec"),
        Op.setWorkloadVersion (charmVersion s), Op.setStatus StatusV.active]) := by
  simp [updateLayerAndRestart, hc, he]

theorem updateLayerAndRestart_of_ne (s : CharmState)
    (hc : s.container.canConnect = true)
    (he : dictEqS s.container.planServices (pebbleLayer s).services = false) :
    updateLayerAndRestart s =
      (reconciledApply s,
       [Op.setStatus (StatusV.maintenance "Assembling pod spec"),
        Op.addLayer "fastapi_demo" (pebbleLayer s) true, Op.restart pebble_service_name,
        Op.setWorkloadVersion (charmVersion (appliedState s)), Op.setStatus StatusV.active]) := by
  simp [updateLayerAndRestart, hc, he]

/-! ### Fields preserved by a reconciliation -/

theorem updateLayerAndRestart_appEnvironment (s : CharmState) :
    (updateLayerAndRestart s).1.appEnvironment = s.appEnvironment := by
  cases hc : s.container.canConnect
  · rw [updateLayerAndRestart_of_not_connect s hc]
  · cases hd : dictEqS s.container.planServices (pebbleLayer s).services
    · rw [updateLayerAndRestart_of_ne s hc hd]
      rfl
    · rw [updateLayerAndRestart_of_eq s hc hd]
      rfl

theorem updateLayerAndRestart_serverPort (s : CharmState) :
    (updateLayerAndRestart s).1.serverPort = s.serverPort := by
  cases hc : s.container.canConnect
  · rw [updateLayerAndRestart_of_not_connect s hc]
  · cases hd : dictEqS s.container.planServices (pebbleLayer s).services
    · rw [updateLayerAndRestart_of_ne s hc hd]
      rfl
    · rw [updateLayerAndRestart_of_eq s hc hd]
      rfl

theorem updateLayerAndRestart_canConnect (s : CharmState) :
    (updateLayerAndRestart s).1.container.canConnect = s.container.canConnect := by
  cases hc : s.container.canConnect
  · rw [updateLayerAndRestart_of_not_connect s hc]
    exact hc
  · cases hd : dictEqS s.container.planServices (pebbleLayer s).services
    · rw [updateLayerAndRestart_of_ne s hc hd]
      exact hc
    · rw [updateLayerAndRestart_of_eq s hc hd]
      exact hc

theorem updateLayerAndRestart_probeResult (s : CharmState) :
    (updateLayerAndRestart s).1.container.probeResult = s.container.probeResult := by
  cases hc : s.container.canConnect
  · rw [updateLayerAndRestart_of_not_connect s hc]
  · cases hd : dictEqS s.container.planServices (pebbleLayer s).services
    · rw [updateLayerAndRestart_of_ne s hc hd]
      rfl
    · rw [updateLayerAndRestart_of_eq s hc hd]
      rfl

theorem pebbleLayer_congr {s t : CharmState}
    (he : s.appEnvironment = t.appEnvironment) (hp : s.serverPort = t.serverPort) :
    pebbleLayer s = pebbleLayer t := by
  simp [pebbleLayer, he, hp]

/-! ### Lemmas on the services mapping -/

theorem dictEqS_refl (a : Services) : dictEqS a a = true := by
  simp [dictEqS, List.all_eq_true]

theorem applyCombine_all_managed (plan : Services) (spec : ServiceSpec)
    (h : ∀ p ∈ plan, p.1 = pebble_service_name) :
    applyCombine [(pebble_service_name, spec)] plan = [(pebble_service_name, spec)] := by
  unfold applyCombine
  have hf : plan.filter (fun p => (lookupS [(pebble_service_name, spec)] p.1).isNone) = [] := by
    rw [List.filter_eq_nil_iff]
    intro p hp
    simp [lookupS, h p hp]
  rw [hf, List.append_nil]

theorem lookupS_append (a b : Services) (k : String) :
    lookupS (a ++ b) k = ((lookupS a k).rec (lookupS b k) fun v => some v : Option ServiceSpec) := by
  induction a with
  | nil => rfl
  | cons p rest ih =>
    obtain ⟨k1, v1⟩ := p
    by_cases hk : k1 = k
    · simp [lookupS, hk]
    · simp [lookupS, hk, ih]

theorem lookupS_filter (q : String × ServiceSpec → Bool) (plan : Services) (k : String)
    (hq : ∀ v, q (k, v) = true) :
    lookupS (plan.filter q) k = lookupS plan k := by
  induction plan with
  | nil => rfl
  | cons p rest ih =>
    obtain ⟨k1, v1⟩ := p
    by_cases hk : k1 = k
    · subst hk
      rw [List.filter_cons, if_pos (hq v1)]
      simp [lookupS]
    · rw [List.filter_cons]
      by_cases hqp : q (k1, v1) = true
      · rw [if_pos hqp]
        simp [lookupS, hk, ih]
      · rw [if_neg hqp]
        simp [lookupS, hk, ih]

theorem lookupS_applyCombine_of_none (newS plan : Services) (k : String)
    (h : lookupS newS k = none) :
    lookupS (applyCombine newS plan) k = lookupS plan k := by
  unfold applyCombine
  rw [lookupS_append, h]
  exact lookupS_filter _ plan k fun v => by simp [h]

/-! ### Lemmas on the endpoint split -/

theorem splitChar_ne_nil (c : Char) (cs : List Char) : splitChar c cs ≠ [] := by
  cases cs with
  | nil => simp [splitChar]
  | cons x xs =>
    unfold splitChar
    by_cases hx : x = c
    · simp [hx]
    · simp only [hx, if_false]
      cases splitChar c xs <;> simp

theorem splitChar_length (c : Char) (cs : List Char) :
    (splitChar c cs).length = cs.count c + 1 := by
  induction cs with
  | nil => simp [splitChar]
  | cons x xs ih =>
    unfold splitChar
    by_cases hx : x = c
    · subst hx
      simp [List.count_cons, ih]
    · simp only [hx, if_false]
      rcases hr : splitChar c xs with _ | ⟨y, ys⟩
      · exact absurd hr (splitChar_ne_nil c xs)
      · have := ih
        rw [hr] at this
        simp only [List.length_cons] at this ⊢
        simp [List.count_cons, hx, this]

theorem splitChar_of_not_mem (c : Char) (cs : List Char) (h : c ∉ cs) :
    splitChar c cs = [cs] := by
  induction cs with
  | nil => rfl
  | cons x xs ih =>
    have hx : x ≠ c := fun hxc => h (hxc ▸ List.mem_cons_self x xs)
    have hxs : c ∉ xs := fun hm => h (List.mem_cons_of_mem x hm)
    unfold splitChar
    simp only [hx, if_false, ih hxs]

theorem splitChar_well_formed (c : Char) (h p : List Char) (hh : c ∉ h) (hp : c ∉ p) :
    splitChar c (h ++ c :: p) = [h, p] := by
  induction h with
  | nil =>
    simp only [List.nil_append]
    unfold splitChar
    simp [splitChar_of_not_mem c p hp]
  | cons x xs ih =>
    have hx : x ≠ c := fun hxc => hh (hxc ▸ List.mem_cons_self x xs)
    have hxs : c ∉ xs := fun hm => hh (List.mem_cons_of_mem x hm)
    simp only [List.cons_append]
    unfold splitChar
    simp only [hx, if_false, ih hxs]

/-! ### Version-probe lemmas -/

theorem charmVersion_of_probe_none (s : CharmState)
    (h : s.container.probeResult = none) : charmVersion s = "" := by
  unfold charmVersion
  rw [h]
  split <;> rfl

theorem charmVersion_of_not_connect (s : CharmState)
    (h : s.container.canConnect = false) : charmVersion s = "" := by
  simp [charmVersion, h]

/-! ### The command string -/

theorem layerCommand_eq (port : Int) :
    layerCommand port =
      "uvicorn api_demo_server.app:app --host=0.0.0.0 " ++ ("--port=" ++ toString port) := by
  have h : ("uvicorn" ++ " " ++ "api_demo_server.app:app" ++ " " ++ "--host=0.0.0.0" ++ " "
        : String) = "uvicorn api_demo_server.app:app --host=0.0.0.0 " := by decide
  calc layerCommand port
      = ("uvicorn" ++ " " ++ "api_demo_server.app:app" ++ " " ++ "--host=0.0.0.0" ++ " ")
          ++ ("--port=" ++ toString port) := by
        simp [layerCommand, String.intercalate, String.intercalate.go, String.append_assoc]
    _ = "uvicorn api_demo_server.app:app --host=0.0.0.0 " ++ ("--port=" ++ toString port) := by
        rw [h]

/-! ### Counting operations -/

theorem countAdds_append (a b : List Op) : countAdds (a ++ b) = countAdds a + countAdds b := by
  simp [countAdds, List.filter_append]

theorem countRestarts_append (a b : List Op) :
    countRestarts (a ++ b) = countRestarts a + countRestarts b := by
  simp [countRestarts, List.filter_append]

/-! ### Claims -/

/-- C3: for every prior state, handling `ConfigChanged` with port 22 sets
status to Blocked and returns without reconciling: the trace is a single
Blocked status write (so no Maintenance write, no `add_layer`, no `restart`),
and the credentials (`app_environment`) and the container — in particular its
active plan — are untouched. -/
theorem claim_C3 (s : CharmState) :
    (onConfigChanged 22 s).1.status =
        StatusV.blocked "invalid port number, 22 is reserved for SSH" ∧
    (onConfigChanged 22 s).1.appEnvironment = s.appEnvironment ∧
    (onConfigChanged 22 s).1.container = s.container ∧
    (onConfigChanged 22 s).2 =
      [Op.setStatus (StatusV.blocked "invalid port number, 22 is reserved for SSH")] :=
  ⟨rfl, rfl, rfl, rfl⟩

/-- C4: handling `CredentialsRevoked` (`_on_database_relation_removed`)
always empties `app_environment` and sets Waiting status, and performs
nothing else — no Reconcile attempt (no Maintenance write, no `add_layer`,
no `restart`), regardless of the prior status or reachability. -/
theorem claim_C4 (s : CharmState) :
    (onDatabaseRelationRemoved s).1.appEnvironment = [] ∧
    (onDatabaseRelationRemoved s).1.status =
        StatusV.waiting "Waiting for database relation" ∧
    (onDatabaseRelationRemoved s).1.container = s.container ∧
    (onDatabaseRelationRemoved s).2 =
      [Op.setStatus (StatusV.waiting "Waiting for database relation")] :=
  ⟨rfl, rfl, rfl, rfl⟩

/-- C6: when Reconcile runs against an unreachable workload, the resulting
status is Waiting, the trace holds no `add_layer`, `restart` or
`set_workload_version` operation, and the version probe reports `""`. -/
theorem claim_C6 (s : CharmState) (h : s.container.canConnect = false) :
    (updateLayerAndRestart s).1.status =
        StatusV.waiting "Waiting for Pebble in workload container" ∧
    (updateLayerAndRestart s).2 =
      [Op.setStatus (StatusV.maintenance "Assembling pod spec"),
       Op.setStatus (StatusV.waiting "Waiting for Pebble in workload container")] ∧
    (updateLayerAndRestart s).1.workloadVersion = s.workloadVersion ∧
    charmVersion s = "" := by
  rw [updateLayerAndRestart_of_not_connect s h]
  exact ⟨rfl, rfl, rfl, charmVersion_of_not_connect s h⟩

/-- Witness for C6 at a concrete unreachable container. -/
theorem claim_C6_witness :
    (updateLayerAndRestart (initState downContainer)).1.status =
        StatusV.waiting "Waiting for Pebble in workload container" ∧
    (updateLayerAndRestart (initState downContainer)).2 =
      [Op.setStatus (StatusV.maintenance "Assembling pod spec"),
       Op.setStatus (StatusV.waiting "Waiting for Pebble in workload container")] ∧
    (updateLayerAndRestart (initState downContainer)).1.workloadVersion =
        (initState downContainer).workloadVersion ∧
    charmVersion (initState downContainer) = "" :=
  claim_C6 (initState downContainer) rfl

/-- C7: a failed version probe (modelled by `probeResult = none`, covering
timeout, connection error and malformed body) is converted to the version
string `""` and never propagated: when the container is reachable the
reconciliation still ends Active, reporting version `""`. -/
theorem claim_C7 (s : CharmState) (hp : s.container.probeResult = none) :
    charmVersion s = "" ∧
    (s.container.canConnect = true →
      (updateLayerAndRestart s).1.status = StatusV.active ∧
      (updateLayerAndRestart s).1.workloadVersion = "") := by
  refine ⟨charmVersion_of_probe_none s hp, fun hc => ?_⟩
  cases hd : dictEqS s.container.planServices (pebbleLayer s).services
  · rw [updateLayerAndRestart_of_ne s hc hd]
    exact ⟨rfl, charmVersion_of_probe_none (appliedState s) hp⟩
  · rw [updateLayerAndRestart_of_eq s hc hd]
    exact ⟨rfl, charmVersion_of_probe_none s hp⟩

/-- Witness for C7 at a concrete reachable container whose probe fails. -/
theorem claim_C7_witness :
    charmVersion (initState freshContainer) = "" ∧
    ((initState freshContainer).container.canConnect = true →
      (updateLayerAndRestart (initState freshContainer)).1.status = StatusV.active ∧
      (updateLayerAndRestart (initState freshContainer)).1.workloadVersion = "") :=
  claim_C7 (initState freshContainer) rfl

/-- C10: every invocation of `_update_layer_and_restart` writes
`Maintenance("Assembling pod spec")` first — also when it ends Waiting
because the workload is unreachable, and in no-op runs — and the final
status written (the last trace element) is never that Maintenance value. -/
theorem claim_C10 (s : CharmState) :
    (updateLayerAndRestart s).2.head? =
      some (Op.setStatus (StatusV.maintenance "Assembling pod spec")) ∧
    (updateLayerAndRestart s).2.getLast? =
      some (Op.setStatus (updateLayerAndRestart s).1.status) ∧
    (updateLayerAndRestart s).1.status ≠ StatusV.maintenance "Assembling pod spec" := by
  cases hc : s.container.canConnect
  · rw [updateLayerAndRestart_of_not_connect s hc]
    exact ⟨rfl, rfl, by simp⟩
  · cases hd : dictEqS s.container.planServices (pebbleLayer s).services
    · rw [updateLayerAndRestart_of_ne s hc hd]
      exact ⟨rfl, rfl, by simp [reconciledApply, appliedState]⟩
    · rw [updateLayerAndRestart_of_eq s hc hd]
      exact ⟨rfl, rfl, by simp [reconciledSkip]⟩

/-- C2: with a reachable workload, Reconcile compares only the services
subtrees (the fetched plan's `services` mapping against the desired layer's
`services` mapping — the comparison `dictEqS` takes nothing else as input,
so metadata such as `summary` or `description` cannot influence it).  If
they are dict-equal, no `add_layer` and no `restart` happen and the plan is
untouched; if they differ, exactly one `add_layer` (label `fastapi_demo`,
`combine=True`) and exactly one `restart` of exactly the managed service
happen, and services other than the managed one keep their old definitions
in the resulting plan. -/
theorem claim_C2 (s : CharmState) (hc : s.container.canConnect = true) :
    (dictEqS s.container.planServices (pebbleLayer s).services = true →
      countAdds (updateLayerAndRestart s).2 = 0 ∧
      countRestarts (updateLayerAndRestart s).2 = 0 ∧
      (updateLayerAndRestart s).1.container.planServices = s.container.planServices) ∧
    (dictEqS s.container.planServices (pebbleLayer s).services = false →
      ((updateLayerAndRestart s).2.filter fun o =>
          match o with | Op.addLayer _ _ _ => true | _ => false) =
        [Op.addLayer "fastapi_demo" (pebbleLayer s) true] ∧
      ((updateLayerAndRestart s).2.filter fun o =>
          match o with | Op.restart _ => true | _ => false) =
        [Op.restart pebble_service_name] ∧
      (∀ k, k ≠ pebble_service_name →
        lookupS (updateLayerAndRestart s).1.container.planServices k =
          lookupS s.container.planServices k)) := by
  constructor
  · intro hd
    rw [updateLayerAndRestart_of_eq s hc hd]
    exact ⟨rfl, rfl, rfl⟩
  · intro hd
    rw [updateLayerAndRestart_of_ne s hc hd]
    refine ⟨rfl, rfl, fun k hk => ?_⟩
    show lookupS (applyCombine (pebbleLayer s).services s.container.planServices) k =
      lookupS s.container.planServices k
    refine lookupS_applyCombine_of_none _ _ k ?_
    show (if pebble_service_name = k then some _ else lookupS [] k) = none
    rw [if_neg fun hq => hk hq.symm]
    rfl

/-- Witness for C2 at a concrete reachable container. -/
theorem claim_C2_witness :
    (dictEqS (initState freshContainer).container.planServices
        (pebbleLayer (initState freshContainer)).services = true →
      countAdds (updateLayerAndRestart (initState freshContainer)).2 = 0 ∧
      countRestarts (updateLayerAndRestart (initState freshContainer)).2 = 0 ∧
      (updateLayerAndRestart (initState freshContainer)).1.container.planServices =
        (initState freshContainer).container.planServices) ∧
    (dictEqS (initState freshContainer).container.planServices
        (pebbleLayer (initState freshContainer)).services = false →
      ((updateLayerAndRestart (initState freshContainer)).2.filter fun o =>
          match o with | Op.addLayer _ _ _ => true | _ => false) =
        [Op.addLayer "fastapi_demo" (pebbleLayer (initState freshContainer)) true] ∧
      ((updateLayerAndRestart (initState freshContainer)).2.filter fun o =>
          match o with | Op.restart _ => true | _ => false) =
        [Op.restart pebble_service_name] ∧
      (∀ k, k ≠ pebble_service_name →
        lookupS (updateLayerAndRestart (initState freshContainer)).1.container.planServices k =
          lookupS (initState freshContainer).container.planServices k)) :=
  claim_C2 (initState freshContainer) rfl

/-- C1 fails as stated: at `cexState` — a reachable container whose active
plan holds a foreign service `"other"` and nothing else, with no change to
credentials, configuration or (from outside) the active layer between the
calls — the second of two consecutive Reconcile calls again finds the
fetched services subtree unequal to the desired one (the desired layer never
mentions `"other"`) and issues one more `add_layer` and one more `restart`,
for two apply+restart pairs in total. -/
theorem claim_C1_counterexample :
    countAdds (updateLayerAndRestart (updateLayerAndRestart cexState).1).2 = 1 ∧
    countRestarts (updateLayerAndRestart (updateLayerAndRestart cexState).1).2 = 1 ∧
    countAdds ((updateLayerAndRestart cexState).2 ++
        (updateLayerAndRestart (updateLayerAndRestart cexState).1).2) = 2 ∧
    countRestarts ((updateLayerAndRestart cexState).2 ++
        (updateLayerAndRestart (updateLayerAndRestart cexState).1).2) = 2 := by
  decide

/-- C1 (amended): provided every service in the initially active plan is the
managed service (in particular when the plan is empty or was produced by
this charm alone), two consecutive Reconcile calls with no intervening state
change perform at most one `add_layer` and at most one `restart` in total,
the second call performing none: when reachable, it finds the fetched
services subtree dict-equal to the desired one. -/
theorem claim_C1_amended (s : CharmState)
    (h : ∀ p ∈ s.container.planServices, p.1 = pebble_service_name) :
    countAdds ((updateLayerAndRestart s).2 ++
        (updateLayerAndRestart (updateLayerAndRestart s).1).2) ≤ 1 ∧
    countRestarts ((updateLayerAndRestart s).2 ++
        (updateLayerAndRestart (updateLayerAndRestart s).1).2) ≤ 1 ∧
    countAdds (updateLayerAndRestart (updateLayerAndRestart s).1).2 = 0 ∧
    countRestarts (updateLayerAndRestart (updateLayerAndRestart s).1).2 = 0 ∧
    (s.container.canConnect = true →
      dictEqS (updateLayerAndRestart s).1.container.planServices
        (pebbleLayer (updateLayerAndRestart s).1).services = true) := by
  cases hc : s.container.canConnect
  · rw [updateLayerAndRestart_of_not_connect s hc]
    rw [updateLayerAndRestart_of_not_connect
      ({ s with status := StatusV.waiting "Waiting for Pebble in workload container" }) hc]
    exact ⟨Nat.zero_le 1, Nat.zero_le 1, rfl, rfl, fun hcc => Bool.noConfusion hcc⟩
  · cases hd : dictEqS s.container.planServices (pebbleLayer s).services
    · -- the subtrees differ: the first call applies and restarts, after which
      -- the plan is exactly the desired services (the hypothesis kills the
      -- filter residue), so the second call is a no-op.
      have happ : applyCombine (pebbleLayer s).services s.container.planServices =
          (pebbleLayer s).services :=
        applyCombine_all_managed s.container.planServices _ h
      have hpl2 : pebbleLayer (reconciledApply s) = pebbleLayer s :=
        pebbleLayer_congr rfl rfl
      have hd2 : dictEqS (reconciledApply s).container.planServices
          (pebbleLayer (reconciledApply s)).services = true := by
        show dictEqS (applyCombine (pebbleLayer s).services s.container.planServices) _ = true
        rw [happ, hpl2]
        exact dictEqS_refl _
      rw [updateLayerAndRestart_of_ne s hc hd]
      rw [updateLayerAndRestart_of_eq (reconciledApply s) hc hd2]
      exact ⟨Nat.le_of_eq rfl, Nat.le_of_eq rfl, rfl, rfl, fun _ => hd2⟩
    · -- the subtrees already agree: neither call applies or restarts.
      have hpl2 : pebbleLayer (reconciledSkip s) = pebbleLayer s :=
        pebbleLayer_congr rfl rfl
      have hd2 : dictEqS (reconciledSkip s).container.planServices
          (pebbleLayer (reconciledSkip s)).services = true := by
        show dictEqS s.container.planServices _ = true
        rw [hpl2]
        exact hd
      rw [updateLayerAndRestart_of_eq s hc hd]
      rw [updateLayerAndRestart_of_eq (reconciledSkip s) hc hd2]
      exact ⟨Nat.zero_le 1, Nat.zero_le 1, rfl, rfl, fun _ => hd2⟩

/-- C5: `_pebble_layer` is a pure function of the credential environment and
the configured port alone; its single service carries a command of the shape
`… --port=<configured port> …` and exactly the stored environment mapping
(the four credential entries when set, empty when unset); and in the
concrete scenario CredentialsProvided "10.0.0.5:5432"/"alice"/"s3cr3t"
followed by ConfigChanged 8080, the command contains `--port=8080` and the
environment holds the four credential entries with those values. -/
theorem claim_C5 :
    (∀ s t : CharmState, s.appEnvironment = t.appEnvironment → s.serverPort = t.serverPort →
      pebbleLayer s = pebbleLayer t) ∧
    (∀ s : CharmState, ∃ pre post : String,
      (pebbleLayer s).services =
        [(pebble_service_name,
          { override := "replace", summary := "fastapi demo",
            command := pre ++ ("--port=" ++ toString s.serverPort) ++ post,
            startup := "enabled", environment := s.appEnvironment })]) ∧
    (∃ pre post : String,
      (pebbleLayer (step (Event.configChanged 8080)
          (step (Event.dbCreated "10.0.0.5:5432" "alice" "s3cr3t")
            (initState freshContainer)))).services =
        [(pebble_service_name,
          { override := "replace", summary := "fastapi demo",
            command := pre ++ "--port=8080" ++ post,
            startup := "enabled",
            environment :=
              [("DEMO_SERVER_DB_HOST", "10.0.0.5"), ("DEMO_SERVER_DB_PORT", "5432"),
               ("DEMO_SERVER_DB_USER", "alice"), ("DEMO_SERVER_DB_PASSWORD", "s3cr3t")] })]) := by
  refine ⟨fun s t he hp => pebbleLayer_congr he hp, fun s => ?_, ?_⟩
  · refine ⟨"uvicorn api_demo_server.app:app --host=0.0.0.0 ", "", ?_⟩
    simp [pebbleLayer, layerCommand_eq]
  · exact ⟨"uvicorn api_demo_server.app:app --host=0.0.0.0 ", "", by decide⟩

/-- Witness for C5's extensionality part: two states agreeing on
`app_environment` and `server-port` but differing in container reachability
produce the same layer. -/
theorem claim_C5_witness :
    pebbleLayer (initState freshContainer) = pebbleLayer (initState downContainer) :=
  claim_C5.1 (initState freshContainer) (initState downContainer) rfl rfl

/-- `_on_database_created` raises when the split does not yield exactly two
parts. -/
theorem onDatabaseCreated_eq_error (ep u pw : String) (s : CharmState)
    (hlen : (splitEndpoints ep).length ≠ 2) :
    onDatabaseCreated ep u pw s = Except.error "ValueError: values to unpack" := by
  cases hsp : splitEndpoints ep with
  | nil => unfold onDatabaseCreated; rw [hsp]
  | cons a t =>
    cases t with
    | nil => unfold onDatabaseCreated; rw [hsp]
    | cons b t2 =>
      cases t2 with
      | nil =>
        rw [hsp] at hlen
        exact absurd rfl hlen
      | cons c t3 => unfold onDatabaseCreated; rw [hsp]

/-- `_on_database_created` succeeds when the split yields exactly two
parts, storing them as host and port. -/
theorem onDatabaseCreated_eq_ok (ep u pw : String) (s : CharmState) (a b : String)
    (hsp : splitEndpoints ep = [a, b]) :
    onDatabaseCreated ep u pw s =
      Except.ok (updateLayerAndRestart
        { s with appEnvironment :=
            [("DEMO_SERVER_DB_HOST", a), ("DEMO_SERVER_DB_PORT", b),
             ("DEMO_SERVER_DB_USER", u), ("DEMO_SERVER_DB_PASSWORD", pw)] }) := by
  unfold onDatabaseCreated
  rw [hsp]

/-- C8: a `CredentialsProvided` endpoint whose colon count differs from one
(zero or several separators) makes `_on_database_created` raise (the tuple
unpacking of `split(":")` fails), while every well-formed `host:port`
endpoint is split into its host and port parts and handled successfully. -/
theorem claim_C8 (endpoints username password : String) (s : CharmState) :
    (endpoints.data.count ':' ≠ 1 →
      onDatabaseCreated endpoints username password s =
        Except.error "ValueError: values to unpack") ∧
    (∀ h p : List Char, ':' ∉ h → ':' ∉ p → endpoints.data = h ++ ':' :: p →
      onDatabaseCreated endpoints username password s =
        Except.ok (updateLayerAndRestart
          { s with appEnvironment :=
              [("DEMO_SERVER_DB_HOST", String.mk h), ("DEMO_SERVER_DB_PORT", String.mk p),
               ("DEMO_SERVER_DB_USER", username), ("DEMO_SERVER_DB_PASSWORD", password)] })) := by
  constructor
  · intro hcount
    apply onDatabaseCreated_eq_error
    rw [splitEndpoints, List.length_map, splitChar_length]
    omega
  · intro h p hh hp hdata
    apply onDatabaseCreated_eq_ok
    rw [splitEndpoints, hdata, splitChar_well_formed ':' h p hh hp]
    rfl

/-- Witness for C8: a colon-free endpoint raises, a one-colon endpoint is
accepted and split. -/
theorem claim_C8_witness :
    onDatabaseCreated "nocolon" "u" "pw" (initState freshContainer) =
      Except.error "ValueError: values to unpack" ∧
    onDatabaseCreated "10.0.0.5:5432" "alice" "s3cr3t" (initState freshContainer) =
      Except.ok (updateLayerAndRestart
        { initState freshContainer with appEnvironment :=
            [("DEMO_SERVER_DB_HOST", "10.0.0.5"), ("DEMO_SERVER_DB_PORT", "5432"),
             ("DEMO_SERVER_DB_USER", "alice"), ("DEMO_SERVER_DB_PASSWORD", "s3cr3t")] }) :=
  ⟨(claim_C8 "nocolon" "u" "pw" (initState freshContainer)).1 (by decide),
   (claim_C8 "10.0.0.5:5432" "alice" "s3cr3t" (initState freshContainer)).2
     "10.0.0.5".data "5432".data (by decide) (by decide) (by decide)⟩

/-- A successful `_on_database_created` leaves the four credential keys in
`app_environment`. -/
theorem onDatabaseCreated_ok_env (ep u pw : String) (s : CharmState)
    (pr : CharmState × List Op) (hr : onDatabaseCreated ep u pw s = Except.ok pr) :
    ∃ a b, pr.1.appEnvironment =
      [("DEMO_SERVER_DB_HOST", a), ("DEMO_SERVER_DB_PORT", b),
       ("DEMO_SERVER_DB_USER", u), ("DEMO_SERVER_DB_PASSWORD", pw)] := by
  rcases hsp : splitEndpoints ep with _ | ⟨a, _ | ⟨b, _ | ⟨c, t⟩⟩⟩
  · rw [onDatabaseCreated_eq_error ep u pw s (by rw [hsp]; simp)] at hr
    exact absurd hr (by simp)
  · rw [onDatabaseCreated_eq_error ep u pw s (by rw [hsp]; simp)] at hr
    exact absurd hr (by simp)
  · rw [onDatabaseCreated_eq_ok ep u pw s a b hsp] at hr
    cases hr
    exact ⟨a, b, updateLayerAndRestart_appEnvironment _⟩
  · rw [onDatabaseCreated_eq_error ep u pw s
      (by rw [hsp]; simp only [List.length_cons, List.length_nil]; omega)] at hr
    exact absurd hr (by simp)

/-- Every event handler preserves the credential-set invariant. -/
theorem step_credInv (e : Event) (s : CharmState) (h : credInv s.appEnvironment) :
    credInv (step e s).appEnvironment := by
  cases e with
  | dbCreated ep u pw =>
    cases hr : onDatabaseCreated ep u pw s with
    | error msg =>
      simp only [step, hr]
      exact h
    | ok pr =>
      obtain ⟨pr1, ops⟩ := pr
      obtain ⟨a, b, henv⟩ := onDatabaseCreated_ok_env ep u pw s (pr1, ops) hr
      simp only [step, hr]
      exact Or.inr ⟨a, b, u, pw, henv⟩
  | dbRemoved => exact Or.inl rfl
  | configChanged port =>
    by_cases h22 : port = (22 : Int)
    · subst h22
      simp only [step, onConfigChanged, if_pos rfl]
      exact h
    · simp only [step, onConfigChanged, if_neg h22]
      rw [updateLayerAndRestart_appEnvironment]
      exact h
  | pebbleReady =>
    show credInv ((updateLayerAndRestart s).1.appEnvironment)
    rw [updateLayerAndRestart_appEnvironment]
    exact h
  | containerChanged c => exact h

/-- The invariant holds along every event sequence. -/
theorem foldl_credInv (evs : List Event) (s : CharmState) (h : credInv s.appEnvironment) :
    credInv ((evs.foldl (fun st e => step e st) s).appEnvironment) := by
  induction evs generalizing s with
  | nil => exact h
  | cons e rest ih => exact ih _ (step_credInv e s h)

/-- C9: the `CredentialSet` (`app_environment`) is always either fully empty
or fully populated with the four credential keys: every handler preserves
the property, and it holds in every state reachable from the initial state
by any event sequence against any container. -/
theorem claim_C9 :
    (∀ (e : Event) (s : CharmState),
      credInv s.appEnvironment → credInv (step e s).appEnvironment) ∧
    (∀ (c : Container) (evs : List Event),
      credInv ((evs.foldl (fun st e => step e st) (initState c)).appEnvironment)) :=
  ⟨step_credInv, fun _ evs => foldl_credInv evs _ (Or.inl rfl)⟩

/-- Witness for C9 at a concrete event and state. -/
theorem claim_C9_witness :
    credInv ((step Event.dbRemoved (initState freshContainer)).appEnvironment) :=
  claim_C9.1 Event.dbRemoved (initState freshContainer) (Or.inl rfl)

/-- Witness for the amended C1 at a concrete reachable container with an
empty plan. -/
theorem claim_C1_witness :
    (∀ p ∈ (initState freshContainer).container.planServices, p.1 = pebble_service_name) ∧
    (countAdds ((updateLayerAndRestart (initState freshContainer)).2 ++
        (updateLayerAndRestart (updateLayerAndRestart (initState freshContainer)).1).2) ≤ 1 ∧
    countRestarts ((updateLayerAndRestart (initState freshContainer)).2 ++
        (updateLayerAndRestart (updateLayerAndRestart (initState freshContainer)).1).2) ≤ 1 ∧
    countAdds (updateLayerAndRestart (updateLayerAndRestart (initState freshContainer)).1).2 = 0 ∧
    countRestarts
      (updateLayerAndRestart (updateLayerAndRestart (initState freshContainer)).1).2 = 0 ∧
    ((initState freshContainer).container.canConnect = true →
      dictEqS (updateLayerAndRestart (initState freshContainer)).1.container.planServices
        (pebbleLayer (updateLayerAndRestart (initState freshContainer)).1).services = true)) :=
  ⟨by simp [initState, freshContainer],
   claim_C1_amended (initState freshContainer) (by simp [initState, freshContainer])⟩

end Charm
